import Mathlib

/-!
# Verification of the automation_logger run-telemetry recorder

Shallow embedding of the repository's Python sources:
  * `src/_json.py`   — `jsonable` (the Value Normalizer)
  * `src/_paths.py`  — `resolve_entry_script_path`, `resolve_path`
  * `src/_config.py` — config loading (modelled as an already-loaded mapping)
  * `src/_host.py`   — `get_host_context`
  * `src/logger.py`  — `AutomationRunLogger` (`from_config`, `set_output`,
    `add_output`, `mark_failure`, `add_flag`, `__enter__`, `__exit__`)

Python values that can flow into output/context/flags are modelled by the
inductive `PyVal`.  Python `dict`s are modelled as association lists with
Python `dict` semantics (assignment updates an existing key in place,
otherwise appends; `update` folds assignments).  Wall-clock readings
(`time.time()`) are rationals supplied as parameters.  Filesystem and host
lookups are supplied through an `Env` record of pure functions, so the code's
control flow is embedded exactly while the OS remains a parameter.
-/

namespace AutomationLogger

/-- A Python value, as far as the logger's payloads are concerned.
`float` is modelled by `ℚ` (no claim depends on float rounding).
A `datetime` carries the ISO text of its naive part and, when aware, the
ISO suffix of its timezone offset; `other` is any object of another type,
carried as its `str()` rendering. -/
inductive PyVal where
  | none
  | bool (b : Bool)
  | int (n : Int)
  | float (q : ℚ)
  | str (s : String)
  | list (xs : List PyVal)
  | dict (kvs : List (String × PyVal))
  | datetime (base : String) (tzSuffix : Option String)
  | other (strForm : String)

/-- Python dict lookup `d.get(k)` (first—and only—binding of the key). -/
def dictGet : List (String × PyVal) → String → Option PyVal
  | [], _ => Option.none
  | (k, v) :: rest, key => if k = key then some v else dictGet rest key

/-- Python dict assignment `d[k] = v`: replaces an existing binding in
place, otherwise appends (insertion order preserved). -/
def dictSet : List (String × PyVal) → String → PyVal → List (String × PyVal)
  | [], key, val => [(key, val)]
  | (k, v) :: rest, key, val =>
    if k = key then (k, val) :: rest else (k, v) :: dictSet rest key val

/-- Python `d.setdefault(k, v)`: inserts only when the key is absent. -/
def dictSetdefault (d : List (String × PyVal)) (k : String) (v : PyVal) :
    List (String × PyVal) :=
  match dictGet d k with
  | some _ => d
  | Option.none => d ++ [(k, v)]

/-- Python `d.update(us)`: assign each pair of `us` into `d` in order. -/
def dictUpdate (d us : List (String × PyVal)) : List (String × PyVal) :=
  us.foldl (fun acc kv => dictSet acc kv.1 kv.2) d

/-- The whitespace characters Python's `str.strip()` removes (ASCII part:
space, tab, newline, carriage return, vertical tab, form feed). -/
def pyIsSpace (c : Char) : Bool :=
  c = ' ' || c = '\t' || c = '\n' || c = '\r' || c = Char.ofNat 11 || c = Char.ofNat 12

/-- `str.strip()` on the character list: drop leading and trailing whitespace. -/
def stripList (l : List Char) : List Char :=
  ((l.dropWhile pyIsSpace).reverse.dropWhile pyIsSpace).reverse

/-- Python `s.strip()`. -/
def pystrip (s : String) : String := String.mk (stripList s.toList)

/-- Python `s.lower()` (ASCII model): lowercase each character. -/
def pyLower (s : String) : String := String.mk (s.toList.map Char.toLower)

/-- Python truthiness of an optional string (`None` and `""` are falsy). -/
def pyTruthyStr (o : Option String) : Bool :=
  match o with
  | some s => decide (s ≠ "")
  | Option.none => false

/-- Python `a or b or dflt` over optional strings: the first truthy value
wins, else the (truthy) default. -/
def pyOrStrD (a b : Option String) (dflt : String) : String :=
  if pyTruthyStr a then a.getD ""
  else if pyTruthyStr b then b.getD ""
  else dflt

/-- Python `int(s)` on an all-digit string. -/
def digitsToNat (l : List Char) : Nat :=
  l.foldl (fun acc c => acc * 10 + (c.toNat - 48)) 0

/-- Python `s.isdigit()` (ASCII digits; `isdigit` requires non-empty). -/
def pyIsDigitStr (s : String) : Bool :=
  s.toList ≠ [] && s.toList.all Char.isDigit

/-- Python `int(x)` on a float: truncation toward zero. -/
def pyIntTrunc (q : ℚ) : Int :=
  if 0 ≤ q then ⌊q⌋ else -⌊-q⌋

/-! ## `src/_json.py` — the Value Normalizer -/

/-- `jsonable` from `src/_json.py`:

```python
def jsonable(value):
    if value is None: return None
    if isinstance(value, (str, int, float, bool, list, dict)): return value
    if isinstance(value, datetime):
        if value.tzinfo is None:
            value = value.replace(tzinfo=timezone.utc)
        return value.isoformat()
    return str(value)
```

A naive datetime gets `tzinfo=timezone.utc`, whose `isoformat()` suffix is
`+00:00`; an aware one keeps its own suffix. -/
def jsonable : PyVal → PyVal
  | PyVal.none => PyVal.none
  | PyVal.bool b => PyVal.bool b
  | PyVal.int n => PyVal.int n
  | PyVal.float q => PyVal.float q
  | PyVal.str s => PyVal.str s
  | PyVal.list xs => PyVal.list xs
  | PyVal.dict kvs => PyVal.dict kvs
  | PyVal.datetime base tz => PyVal.str (base ++ tz.getD "+00:00")
  | PyVal.other s => PyVal.str s

/-- A JSON-primitive value (null, boolean, integer, float, string). -/
def isPrim : PyVal → Bool
  | PyVal.none => true
  | PyVal.bool _ => true
  | PyVal.int _ => true
  | PyVal.float _ => true
  | PyVal.str _ => true
  | _ => false

/-- A primitive, or a container (list / dict) made entirely of primitives. -/
def isPrimOrPrimContainer : PyVal → Bool
  | PyVal.list xs => xs.all isPrim
  | PyVal.dict kvs => kvs.all (fun kv => isPrim kv.2)
  | v => isPrim v

/-! ## `src/_host.py` — the Host Context Provider -/

/-- The host facts `get_host_context` reads from the OS
(`socket.gethostname()`, `os.getenv("COMPUTERNAME")`, `socket.getfqdn()`,
the possibly-failing `socket.gethostbyname`, `platform.platform()`,
`sys.version`). -/
structure HostInfo where
  host_name : String
  computername : Option String
  fqdn : String
  host_ip : Option String
  platform : String
  python : String

/-- `None`-able string to a Python value. -/
def optStr (o : Option String) : PyVal :=
  match o with
  | some s => PyVal.str s
  | Option.none => PyVal.none

/-- `get_host_context` from `src/_host.py`: the fixed six-key mapping. -/
def get_host_context (h : HostInfo) : List (String × PyVal) :=
  [("host_name", PyVal.str h.host_name),
   ("computername", optStr h.computername),
   ("fqdn", PyVal.str h.fqdn),
   ("host_ip", optStr h.host_ip),
   ("platform", PyVal.str h.platform),
   ("python", PyVal.str h.python)]

/-! ## The process environment

Everything the logger reads from the OS during construction, bundled as
pure functions / values so the Python control flow embeds exactly. -/

structure Env where
  /-- `os.path.isfile` -/
  isfile : String → Bool
  /-- `os.path.abspath` -/
  abspath : String → String
  /-- `os.path.dirname` -/
  dirname : String → String
  /-- `__main__.__file__` if present (`getattr(__main__, "__file__", None)`) -/
  main_file : Option String
  /-- `sys.argv` -/
  argv : List String
  /-- `os.getcwd()` -/
  cwd : String
  /-- `os.getenv("AUTOMATION_ID")` -/
  env_automation_id : Option String
  /-- host facts read by `get_host_context` -/
  host : HostInfo

/-! ## `src/_paths.py` — Entry-Point Resolver and Path Resolver -/

/-- `resolve_entry_script_path` from `src/_paths.py`:

```python
def resolve_entry_script_path(explicit=None):
    if explicit:
        p = os.path.abspath(explicit)
        return p if os.path.isfile(p) else None
    # 1) __main__.__file__
    try:  # (imports __main__)
        main_file = getattr(__main__, "__file__", None)
        if main_file:
            p = os.path.abspath(main_file)
            if os.path.isfile(p): return p
    except Exception: pass
    # 2) sys.argv[0]
    if sys.argv and sys.argv[0]:
        p = os.path.abspath(sys.argv[0])
        if os.path.isfile(p): return p
    # 3) stack inspection fallback
    try:
        for frame_info in inspect.stack(): ...
    except Exception: pass
    return None
```

A truthy `explicit` short-circuits: its absolute path when that is a file,
otherwise `None` immediately (the chain is not consulted).  Step 3 can never
return anything: `inspect` is not imported in `_paths.py`, so the first
iteration raises `NameError`, which the surrounding `except Exception: pass`
swallows.  Hence the embedded chain is: `__main__.__file__`, then
`sys.argv[0]`, then `None`. -/
def resolve_entry_script_path (env : Env) (explicit : Option String) :
    Option String :=
  if pyTruthyStr explicit then
    let p := env.abspath (explicit.getD "")
    if env.isfile p then some p else Option.none
  else
    let step1 : Option String :=
      match env.main_file with
      | some f =>
        if f ≠ "" then
          let p := env.abspath f
          if env.isfile p then some p else Option.none
        else Option.none
      | Option.none => Option.none
    match step1 with
    | some p => some p
    | Option.none =>
      match env.argv.head? with
      | some a =>
        if a ≠ "" then
          let p := env.abspath a
          if env.isfile p then some p else Option.none
        else Option.none
      | Option.none => Option.none

/-- `resolve_path` from `src/_paths.py`:

```python
def resolve_path(path_mode, script_path):
    path_mode = (path_mode or "cwd").strip().lower()
    if path_mode == "script" and script_path:
        return os.path.dirname(os.path.abspath(script_path))
    return os.getcwd()
```
-/
def resolve_path (env : Env) (path_mode : String) (script_path : Option String) :
    String :=
  let pm := pyLower (pystrip (if path_mode = "" then "cwd" else path_mode))
  if pm = "script" ∧ pyTruthyStr script_path then
    env.dirname (env.abspath (script_path.getD ""))
  else env.cwd

/-! ## `src/_config.py` — the Config Source

`load_automation_config` reads a JSON file (absent file ⇒ `{}`).  The claims
are about how the loaded mapping is merged, so the embedding takes the loaded
mapping itself: the recognised keys, each possibly absent. -/

structure Config where
  automation_id : Option Int := Option.none
  schema_name : Option String := Option.none
  table_name : Option String := Option.none
  path_mode : Option String := Option.none

/-! ## `src/logger.py` — the Run Recorder -/

/-- The `AutomationRunLogger` dataclass state.  Field names follow the
source; the internal fields `_t0`, `_success`, `_run_time` are embedded as
`t0`, `success`, `run_time` (wall-clock readings are rationals). -/
structure AutomationRunLogger where
  automation_id : Int
  schema_name : String := "automations"
  table_name : String := "run_log"
  script_path : Option String := Option.none
  output : List (String × PyVal) := []
  context : List (String × PyVal) := []
  flags : List (String × PyVal) := []
  t0 : ℚ := 0
  success : Bool := true
  run_time : Option ℚ := Option.none

/-- The explicit arguments of `AutomationRunLogger.from_config`
(each `None` when not passed). -/
structure FromConfigArgs where
  config_path : String := "automation.config"
  automation_id : Option Int := Option.none
  schema_name : Option String := Option.none
  table_name : Option String := Option.none
  script_path : Option String := Option.none
  path_mode : Option String := Option.none

/-- `env_id` in `from_config`:
`env_id = int(env_id) if env_id and env_id.isdigit() else None`. -/
def env_id_of (env : Env) : Option Int :=
  match env.env_automation_id with
  | some s =>
    if s ≠ "" ∧ pyIsDigitStr s then some (Int.ofNat (digitsToNat s.toList))
    else Option.none
  | Option.none => Option.none

/-- `final_id` in `from_config`:
`automation_id if automation_id is not None else cfg_id if cfg_id is not None
else env_id` (`is not None` tests, not truthiness). -/
def final_id_of (env : Env) (cfg : Config) (args : FromConfigArgs) : Option Int :=
  match args.automation_id with
  | some i => some i
  | Option.none =>
    match cfg.automation_id with
    | some i => some i
    | Option.none => env_id_of env

/-- `final_schema = schema_name or cfg.get("schema_name") or "automations"`. -/
def final_schema_of (cfg : Config) (args : FromConfigArgs) : String :=
  pyOrStrD args.schema_name cfg.schema_name "automations"

/-- `final_table = table_name or cfg.get("table_name") or "run_log"`. -/
def final_table_of (cfg : Config) (args : FromConfigArgs) : String :=
  pyOrStrD args.table_name cfg.table_name "run_log"

/-- `(path_mode or cfg.get("path_mode") or "script").strip().lower()`. -/
def path_mode_selected (cfg : Config) (args : FromConfigArgs) : String :=
  pyLower (pystrip (pyOrStrD args.path_mode cfg.path_mode "script"))

/-- `final_path_mode` after the script→cwd downgrade:
`if final_path_mode == "script" and not entry_script_path: final_path_mode = "cwd"`. -/
def final_path_mode_of (env : Env) (cfg : Config) (args : FromConfigArgs) : String :=
  let fpm := path_mode_selected cfg args
  let entry := resolve_entry_script_path env args.script_path
  if fpm = "script" ∧ ¬ pyTruthyStr entry then "cwd" else fpm

/-- The context payload built by `from_config` (lines 100–110 of
`src/logger.py`): `config_path`, `path_mode`, `cwd`, `resolved_path`, the
entry-script keys when found, then `context.update(get_host_context())`. -/
def build_context (env : Env) (cfg : Config) (args : FromConfigArgs) :
    List (String × PyVal) :=
  let entry := resolve_entry_script_path env args.script_path
  let fpm := final_path_mode_of env cfg args
  let resolved := resolve_path env fpm entry
  let ctx0 : List (String × PyVal) :=
    [("config_path", PyVal.str args.config_path),
     ("path_mode", PyVal.str fpm),
     ("cwd", PyVal.str env.cwd),
     ("resolved_path", PyVal.str resolved)]
  let ctx1 :=
    if pyTruthyStr entry then
      ctx0 ++ [("entry_script_path", PyVal.str (entry.getD "")),
               ("entry_script_dir", PyVal.str (env.dirname (entry.getD "")))]
    else ctx0
  dictUpdate ctx1 (get_host_context env.host)

/-- `AutomationRunLogger.from_config` (`src/logger.py` lines 52–112):
resolves identity by precedence, raises `ValueError` when no
`automation_id` source yields a value, resolves the path mode (with the
script→cwd downgrade) and assembles the context payload. -/
def from_config (env : Env) (cfg : Config) (args : FromConfigArgs) :
    Except String AutomationRunLogger :=
  match final_id_of env cfg args with
  | Option.none =>
    Except.error "automation_id is required (arg, config, or AUTOMATION_ID env var)."
  | some fid =>
    Except.ok
      { automation_id := fid
        schema_name := final_schema_of cfg args
        table_name := final_table_of cfg args
        script_path := resolve_entry_script_path env args.script_path
        context := build_context env cfg args }

/-- `set_output`: `self.output = {k: jsonable(v) for k, v in payload.items()}`. -/
def set_output (lg : AutomationRunLogger) (payload : List (String × PyVal)) :
    AutomationRunLogger :=
  { lg with output := payload.map (fun kv => (kv.1, jsonable kv.2)) }

/-- `add_output`: `self.output[key] = jsonable(value)`. -/
def add_output (lg : AutomationRunLogger) (key : String) (value : PyVal) :
    AutomationRunLogger :=
  { lg with output := dictSet lg.output key (jsonable value) }

/-- `mark_failure`: `self._success = False`. -/
def mark_failure (lg : AutomationRunLogger) : AutomationRunLogger :=
  { lg with success := false }

/-- `add_flag` (`src/logger.py` lines 123–149); `meta` is the `**meta`
keyword mapping in order.  Raises `ValueError` for a name that is empty
(or empty after stripping); the embedding's `Except.error` carries the
message.  In the metadata branch, `existing = self.flags.get(name)`
returns Python `None` both for an absent key and for a stored `None`
entry, so the `if existing is True or existing is None: existing = {}`
test starts from the empty map in all three of those situations; only a
remaining non-map value is wrapped as `{"value": jsonable(existing)}`. -/
def add_flag (lg : AutomationRunLogger) (name : String)
    (meta : List (String × PyVal)) : Except String AutomationRunLogger :=
  if name = "" then Except.error "flag name must be a non-empty string"
  else
    let name := pystrip name
    if name = "" then Except.error "flag name must be a non-empty string"
    else if meta.isEmpty then
      Except.ok { lg with flags := dictSetdefault lg.flags name (PyVal.bool true) }
    else
      let existing :=
        match dictGet lg.flags name with
        | some (PyVal.bool true) => ([] : List (String × PyVal))
        | some PyVal.none => []
        | Option.none => []
        | some (PyVal.dict kvs) => kvs
        | some v => [("value", jsonable v)]
      let merged := meta.foldl (fun acc kv => dictSet acc kv.1 (jsonable kv.2)) existing
      Except.ok { lg with flags := dictSet lg.flags name (PyVal.dict merged) }

/-- What Python exposes about an in-flight exception at `__exit__`:
`exc_type.__name__`, `str(exc)`, and the formatted traceback text. -/
structure ExcInfo where
  type_name : String
  message : String
  traceback : String

/-- The row handed to `_insert_row` and bound into the `INSERT` statement
(`src/logger.py` lines 151–174): the jsonb documents are carried as the
mappings themselves (`json.dumps` is injective serialization, external to
the claims). -/
structure InsertedRow where
  automation_id : Int
  run_time : ℚ
  context : List (String × PyVal)
  output : List (String × PyVal)
  flags : List (String × PyVal)
  success : Bool
  duration_ms : Int

/-- The observable outcome of `__exit__`:
the logger's final state, the row submitted to the sink, whether a
persistence failure was reported on the operational channel (the `print` in
the `except` clause), the boolean `__exit__` returns, and the exception that
consequently escapes to the caller (`return False` makes the `with`
statement re-raise the original exception). -/
structure ExitResult where
  logger : AutomationRunLogger
  row : InsertedRow
  reported : Bool
  returnValue : Bool
  raised : Option ExcInfo

/-- The error payload injected into `output` on failure
(`src/logger.py` lines 187–192). -/
def errorOutput (e : ExcInfo) : PyVal :=
  PyVal.dict [("type", PyVal.str e.type_name),
              ("message", PyVal.str e.message),
              ("traceback", PyVal.str e.traceback)]

/-- `__enter__` (`src/logger.py` lines 176–179): captures the start reading
`t0` (`time.time()`) and the UTC run timestamp `now`
(`datetime.now(timezone.utc)`, modelled as a rational instant). -/
def pyenter (lg : AutomationRunLogger) (t0 now : ℚ) : AutomationRunLogger :=
  { lg with t0 := t0, run_time := some now }

/-- `__exit__` (`src/logger.py` lines 181–200).  `t1` is the `time.time()`
reading at exit, `now` the `datetime.now` fallback for an unentered scope,
`exc` the in-flight exception (if any), `sinkFails` whether
`_insert_row` raises.  The duration is
`int((time.time() - self._t0) * 1000)`; on failure the error payload is
written into `output` (`setdefault` then assignment ≡ one assignment) and
`_success` forced false; the insert is attempted inside `try/except` whose
handler only prints; the method returns `False`, so the original exception
always re-raises. -/
def pyexit (lg : AutomationRunLogger) (t1 now : ℚ) (exc : Option ExcInfo)
    (sinkFails : Bool) : ExitResult :=
  let duration_ms : Int := pyIntTrunc ((t1 - lg.t0) * 1000)
  let run_time : ℚ := lg.run_time.getD now
  let lg1 :=
    match exc with
    | some e =>
      { lg with success := false, output := dictSet lg.output "error" (errorOutput e) }
    | Option.none => lg
  let row : InsertedRow :=
    { automation_id := lg1.automation_id
      run_time := run_time
      context := lg1.context
      output := lg1.output
      flags := lg1.flags
      success := lg1.success
      duration_ms := duration_ms }
  let returnValue := false
  { logger := lg1
    row := row
    reported := sinkFails
    returnValue := returnValue
    raised := if returnValue then Option.none else exc }

/-! ## Spec-side resolution (for the precedence refinement)

These two definitions follow the spec's words — "explicit constructor
argument > config-file value > environment-variable value > hard-coded
default", the first present value winning — and are compared against the
source-derived `from_config`. -/

/-- Spec-side choice: the first present value wins. -/
def specFirst {α : Type} (a b : Option α) : Option α :=
  match a with
  | some x => some x
  | Option.none => b

/-- Spec-side resolution of a defaulted string field. -/
def specResolveStr (explicitArg cfgVal : Option String) (dflt : String) : String :=
  (specFirst explicitArg cfgVal).getD dflt

/-- Spec-side reading of "a present-but-empty string value is treated as
absent": normalizes `some ""` to `none` before the precedence choice. -/
def nonEmptyOpt (o : Option String) : Option String :=
  match o with
  | some s => if s = "" then Option.none else some s
  | Option.none => Option.none

/-! ## Concrete sample inputs (used by witnesses and counterexamples) -/

/-- A fixed host for concrete runs. -/
def sampleHost : HostInfo :=
  { host_name := "h", computername := Option.none, fqdn := "h.example",
    host_ip := some "10.0.0.1", platform := "Linux", python := "3.12" }

/-- A process in which `/main.py` exists and is both the main module's file
and `argv[0]`. -/
def envFound : Env :=
  { isfile := fun p => p = "/main.py"
    abspath := id
    dirname := fun _ => "/"
    main_file := some "/main.py"
    argv := ["/main.py"]
    cwd := "/work"
    env_automation_id := Option.none
    host := sampleHost }

/-- A process in which no entry-script signal succeeds: no file exists, no
main-module file, empty `argv`. -/
def envBare : Env :=
  { isfile := fun _ => false
    abspath := id
    dirname := fun _ => "/"
    main_file := Option.none
    argv := []
    cwd := "/work"
    env_automation_id := Option.none
    host := sampleHost }

/-- A recorder as constructed directly with just an id. -/
def sampleLogger : AutomationRunLogger := { automation_id := 1 }

/-- A recorder whose flags hold a stored `None` entry for `"x"`. -/
def noneFlagLogger : AutomationRunLogger :=
  { sampleLogger with flags := [("x", PyVal.none)] }

/-- `from_config` arguments passing an explicit id and an explicit *empty*
schema name. -/
def argsEmptySchema : FromConfigArgs :=
  { automation_id := some 1, schema_name := some "" }

/-- A config file supplying a schema name. -/
def cfgWithSchema : Config := { schema_name := some "mycfg" }

/-- `from_config` arguments requesting `path_mode="script"` with an
explicit id. -/
def argsScriptMode : FromConfigArgs :=
  { automation_id := some 1, path_mode := some "script" }

/-- A flag entry that `add_flag`'s metadata path does not wrap: the
boolean sentinel `True`, an existing metadata map, or a stored `None`
(which `flags.get(name)` cannot distinguish from an absent key, so the
`existing is True or existing is None` test resets it to the empty map).
Any other existing value gets wrapped as `{value: …}`. -/
def isSentinelMapOrNone : PyVal → Bool
  | PyVal.bool true => true
  | PyVal.dict _ => true
  | PyVal.none => true
  | _ => false

/-- The flags-key invariant: every key is a non-empty string with no
leading or trailing whitespace (stripping it is the identity). -/
def flagsKeysValid (d : List (String × PyVal)) : Prop :=
  ∀ kv ∈ d, kv.1 ≠ "" ∧ pystrip kv.1 = kv.1

/-- `from_config` arguments for the precedence witness: explicit id,
schema and path mode; table left to the config. -/
def argsW1 : FromConfigArgs :=
  { automation_id := some 7, schema_name := some "s1", path_mode := some "cwd" }

/-- Config for the precedence witness: its id and table should lose to /
win over the right sources. -/
def cfgW1 : Config := { automation_id := some 3, table_name := some "t2" }

/-! ## Helper lemmas -/

theorem dictGet_dictSet_self (d : List (String × PyVal)) (k : String) (v : PyVal) :
    dictGet (dictSet d k v) k = some v := by
  induction d with
  | nil => simp [dictGet, dictSet]
  | cons kv rest ih =>
    by_cases h : kv.1 = k
    · simp [dictGet, dictSet, h]
    · simp [dictGet, dictSet, h, ih]

theorem dictGet_dictSet_ne (d : List (String × PyVal)) (k key : String) (v : PyVal)
    (h : k ≠ key) : dictGet (dictSet d k v) key = dictGet d key := by
  induction d with
  | nil => simp [dictGet, dictSet, h]
  | cons kv rest ih =>
    by_cases hk : kv.1 = k
    · simp [dictGet, dictSet, hk, h]
    · simp only [dictSet, if_neg hk, dictGet, ih]

theorem dictGet_dictUpdate_of_not_mem (d us : List (String × PyVal)) (key : String)
    (h : ∀ kv ∈ us, kv.1 ≠ key) :
    dictGet (dictUpdate d us) key = dictGet d key := by
  induction us generalizing d with
  | nil => rfl
  | cons kv rest ih =>
    have h1 : kv.1 ≠ key := h kv (List.mem_cons_self kv rest)
    have h2 : ∀ p ∈ rest, p.1 ≠ key := fun p hp => h p (List.mem_cons_of_mem kv hp)
    calc dictGet (dictUpdate (dictSet d kv.1 kv.2) rest) key
        = dictGet (dictSet d kv.1 kv.2) key := ih (dictSet d kv.1 kv.2) h2
      _ = dictGet d key := dictGet_dictSet_ne d kv.1 key kv.2 h1

theorem jsonable_of_isPrim (v : PyVal) (h : isPrim v = true) : jsonable v = v := by
  cases v <;> simp_all [isPrim, jsonable]

theorem map_jsonable_of_prim (l : List (String × PyVal))
    (h : ∀ kv ∈ l, isPrim kv.2 = true) :
    l.map (fun kv => (kv.1, jsonable kv.2)) = l := by
  induction l with
  | nil => rfl
  | cons kv rest ih =>
    have h1 := jsonable_of_isPrim kv.2 (h kv (List.mem_cons_self kv rest))
    have h2 := ih (fun p hp => h p (List.mem_cons_of_mem kv hp))
    simp [h1, h2]

theorem stripList_eq_rdropWhile (l : List Char) :
    stripList l = List.rdropWhile pyIsSpace (List.dropWhile pyIsSpace l) := rfl

theorem dropWhile_stripList (l : List Char) :
    List.dropWhile pyIsSpace (stripList l) = stripList l := by
  rw [stripList_eq_rdropWhile]
  obtain ⟨t, ht⟩ := List.rdropWhile_prefix pyIsSpace (List.dropWhile pyIsSpace l)
  cases hs : List.rdropWhile pyIsSpace (List.dropWhile pyIsSpace l) with
  | nil => simp
  | cons a s2 =>
    rw [hs, List.cons_append] at ht
    have hhead : pyIsSpace a = false := by
      have hidem := List.dropWhile_idempotent pyIsSpace l
      rw [← ht] at hidem
      by_contra hcon
      rw [Bool.not_eq_false] at hcon
      rw [List.dropWhile_cons_of_pos hcon] at hidem
      have hlen := congrArg List.length hidem
      have hle : (List.dropWhile pyIsSpace (s2 ++ t)).length ≤ (s2 ++ t).length :=
        List.IsSuffix.length_le (List.dropWhile_suffix _)
      simp only [List.length_cons] at hlen
      omega
    exact List.dropWhile_cons_of_neg (by simp [hhead])

theorem stripList_idem (l : List Char) : stripList (stripList l) = stripList l := by
  have h1 := dropWhile_stripList l
  show List.rdropWhile pyIsSpace (List.dropWhile pyIsSpace (stripList l)) = stripList l
  rw [h1, stripList_eq_rdropWhile, List.rdropWhile_idempotent]

theorem pystrip_idem (s : String) : pystrip (pystrip s) = pystrip s := by
  show String.mk (stripList (String.toList (String.mk (stripList s.toList))))
      = String.mk (stripList s.toList)
  rw [show ∀ l : List Char, String.toList (String.mk l) = l from fun _ => rfl,
    stripList_idem]

theorem pyOrStrD_eq_spec (a b : Option String) (d : String) :
    pyOrStrD a b d = specResolveStr (nonEmptyOpt a) (nonEmptyOpt b) d := by
  cases a with
  | some s =>
    by_cases hs : s = ""
    · subst hs
      cases b with
      | some t =>
        by_cases ht : t = ""
        · subst ht
          simp [pyOrStrD, pyTruthyStr, nonEmptyOpt, specResolveStr, specFirst]
        · simp [pyOrStrD, pyTruthyStr, nonEmptyOpt, specResolveStr, specFirst, ht]
      | none => simp [pyOrStrD, pyTruthyStr, nonEmptyOpt, specResolveStr, specFirst]
    · simp [pyOrStrD, pyTruthyStr, nonEmptyOpt, specResolveStr, specFirst, hs]
  | none =>
    cases b with
    | some t =>
      by_cases ht : t = ""
      · subst ht
        simp [pyOrStrD, pyTruthyStr, nonEmptyOpt, specResolveStr, specFirst]
      · simp [pyOrStrD, pyTruthyStr, nonEmptyOpt, specResolveStr, specFirst, ht]
    | none => simp [pyOrStrD, pyTruthyStr, nonEmptyOpt, specResolveStr, specFirst]

theorem final_id_of_eq_spec (env : Env) (cfg : Config) (args : FromConfigArgs) :
    final_id_of env cfg args
      = specFirst args.automation_id (specFirst cfg.automation_id (env_id_of env)) := by
  cases h : args.automation_id <;> cases h2 : cfg.automation_id <;>
    simp [final_id_of, specFirst, h, h2]

theorem dictGet_append_right (d d2 : List (String × PyVal)) (k : String)
    (h : dictGet d k = Option.none) : dictGet (d ++ d2) k = dictGet d2 k := by
  induction d with
  | nil => rfl
  | cons kv rest ih =>
    by_cases hk : kv.1 = k
    · simp [dictGet, hk] at h
    · simp only [dictGet, if_neg hk] at h
      simpa only [List.cons_append, dictGet, if_neg hk] using ih h

theorem host_context_no_path_mode (h : HostInfo) :
    ∀ kv ∈ get_host_context h, kv.1 ≠ "path_mode" := by
  intro kv hkv
  simp only [get_host_context, List.mem_cons, List.not_mem_nil, or_false] at hkv
  rcases hkv with h1 | h1 | h1 | h1 | h1 | h1 <;> rw [h1] <;>
    exact of_decide_eq_true rfl

theorem mem_dictSet_key (d : List (String × PyVal)) (k : String) (v : PyVal) :
    ∀ kv ∈ dictSet d k v, kv.1 = k ∨ kv ∈ d := by
  induction d with
  | nil =>
    intro kv hkv
    simp only [dictSet, List.mem_singleton] at hkv
    exact Or.inl (by rw [hkv])
  | cons p rest ih =>
    intro kv hkv
    by_cases hp : p.1 = k
    · rw [dictSet, if_pos hp] at hkv
      rcases List.mem_cons.mp hkv with h1 | h1
      · exact Or.inl (by rw [h1, hp])
      · exact Or.inr (List.mem_cons_of_mem p h1)
    · rw [dictSet, if_neg hp] at hkv
      rcases List.mem_cons.mp hkv with h1 | h1
      · exact Or.inr (by rw [h1]; exact List.mem_cons_self p rest)
      · rcases ih kv h1 with h2 | h2
        · exact Or.inl h2
        · exact Or.inr (List.mem_cons_of_mem p h2)

theorem mem_dictSetdefault_key (d : List (String × PyVal)) (k : String) (v : PyVal) :
    ∀ kv ∈ dictSetdefault d k v, kv.1 = k ∨ kv ∈ d := by
  intro kv hkv
  unfold dictSetdefault at hkv
  cases hg : dictGet d k with
  | some w => rw [hg] at hkv; exact Or.inr hkv
  | none =>
    rw [hg] at hkv
    rcases List.mem_append.mp hkv with h1 | h1
    · exact Or.inr h1
    · simp only [List.mem_singleton] at h1
      exact Or.inl (by rw [h1])

/-! ## The claims -/

/-- C2: for every run whose monitored work raises, the persisted record has
`success = false` and an `error` output entry whose `type` is the
exception's type name (with message and full traceback), and the original
exception still propagates to the caller after finalization
(`__exit__` returns `False`). -/
theorem claim2_monitored_failure_captured (lg : AutomationRunLogger)
    (t1 now : ℚ) (e : ExcInfo) (sinkFails : Bool) :
    (pyexit lg t1 now (some e) sinkFails).row.success = false
    ∧ dictGet (pyexit lg t1 now (some e) sinkFails).row.output "error"
        = some (PyVal.dict [("type", PyVal.str e.type_name),
                            ("message", PyVal.str e.message),
                            ("traceback", PyVal.str e.traceback)])
    ∧ (pyexit lg t1 now (some e) sinkFails).returnValue = false
    ∧ (pyexit lg t1 now (some e) sinkFails).raised = some e := by
  refine ⟨rfl, ?_, rfl, rfl⟩
  show dictGet (dictSet lg.output "error" (errorOutput e)) "error" = _
  rw [dictGet_dictSet_self]
  rfl

/-- C6: when the Persistence Sink's insert raises at finalization, the
failure is reported and swallowed: `__exit__` still returns (`False`), the
persistence failure never reaches the caller, and the monitored-work
exception (if any) propagates unchanged. -/
theorem claim6_persistence_failure_swallowed (lg : AutomationRunLogger)
    (t1 now : ℚ) (exc : Option ExcInfo) :
    (pyexit lg t1 now exc true).reported = true
    ∧ (pyexit lg t1 now exc true).returnValue = false
    ∧ (pyexit lg t1 now exc true).raised = exc :=
  ⟨rfl, rfl, rfl⟩

/-- C7 (amended): for every entered scope whose exit wall-clock reading is
not earlier than the entry reading, the `duration_ms` submitted to the
sink is a non-negative integer.  (The source reads the non-monotonic
`time.time()`; when the clock regresses between entry and exit the
computed duration is negative — see the counterexample.) -/
theorem claim7_duration_nonneg (lg : AutomationRunLogger)
    (t0 now t1 now2 : ℚ) (exc : Option ExcInfo) (sinkFails : Bool)
    (h : t0 ≤ t1) :
    0 ≤ (pyexit (pyenter lg t0 now) t1 now2 exc sinkFails).row.duration_ms := by
  have hq : (0 : ℚ) ≤ (t1 - t0) * 1000 :=
    mul_nonneg (sub_nonneg.mpr h) (by norm_num)
  show 0 ≤ pyIntTrunc ((t1 - t0) * 1000)
  unfold pyIntTrunc
  rw [if_pos hq]
  exact Int.le_floor.mpr (by exact_mod_cast hq)

/-- C7 witness: a concrete entered scope (entry reading 0, exit reading 1)
yields a non-negative duration. -/
theorem claim7_witness :
    (0 : ℚ) ≤ 1
    ∧ 0 ≤ (pyexit (pyenter sampleLogger 0 0) 1 0 Option.none false).row.duration_ms :=
  ⟨by norm_num,
   claim7_duration_nonneg sampleLogger 0 0 1 0 Option.none false (by norm_num)⟩

/-- C7 counterexample: the claim as stated ("for every entered scope the
submitted `duration_ms` is non-negative") is false: with entry reading 2
and exit reading 1 (a wall clock stepped backwards), the submitted
duration is negative. -/
theorem claim7_counterexample :
    (pyexit (pyenter sampleLogger 2 0) 1 0 Option.none false).row.duration_ms < 0 := by
  show pyIntTrunc (((1 : ℚ) - 2) * 1000) < 0
  norm_num [pyIntTrunc]

/-- C4 (amended): when a non-empty explicit override path is provided, the
entry-point resolver decides on it alone: it returns the override's
absolute path when that names an existing file and otherwise returns
nothing immediately, without consulting the remaining signals (it cannot
raise: it is a total function of the process environment). -/
theorem claim4_explicit_override_short_circuits (env : Env) (e : String)
    (he : e ≠ "") :
    resolve_entry_script_path env (some e)
      = (if env.isfile (env.abspath e) then some (env.abspath e)
         else Option.none) := by
  simp [resolve_entry_script_path, pyTruthyStr, he]

/-- C4 witness: with `/main.py` the only existing file, the resolver
applied to the non-empty override `/nope` follows the if-expression. -/
theorem claim4_witness :
    ("/nope" : String) ≠ ""
    ∧ resolve_entry_script_path envFound (some "/nope")
        = (if envFound.isfile (envFound.abspath "/nope")
           then some (envFound.abspath "/nope") else Option.none) :=
  ⟨by decide, claim4_explicit_override_short_circuits envFound "/nope" (by decide)⟩

/-- C4 counterexample: the claim as stated is false — with an explicit
override that names no existing file, the resolver returns nothing
immediately even though the remaining signals (main-module file, argv[0])
would have produced `/main.py`. -/
theorem claim4_counterexample :
    resolve_entry_script_path envFound (some "/nope") = Option.none
    ∧ resolve_entry_script_path envFound Option.none = some "/main.py" :=
  ⟨rfl, rfl⟩

/-- C8: the Value Normalizer is the identity on primitives (null, boolean,
integer, float, string) and on containers made entirely of such
primitives, so a mapping of primitives passed to `set_output` is returned
unchanged by a subsequent read of `output`. -/
theorem claim8_normalizer_identity (v : PyVal) (lg : AutomationRunLogger)
    (payload : List (String × PyVal))
    (hv : isPrimOrPrimContainer v = true)
    (hp : ∀ kv ∈ payload, isPrim kv.2 = true) :
    jsonable v = v ∧ (set_output lg payload).output = payload := by
  constructor
  · cases v <;> simp_all [isPrimOrPrimContainer, isPrim, jsonable]
  · exact map_jsonable_of_prim payload hp

/-- C8 witness: a list of primitives and a one-key primitive mapping pass
through unchanged. -/
theorem claim8_witness :
    isPrimOrPrimContainer (PyVal.list [PyVal.int 1, PyVal.str "a"]) = true
    ∧ (jsonable (PyVal.list [PyVal.int 1, PyVal.str "a"])
          = PyVal.list [PyVal.int 1, PyVal.str "a"]
       ∧ (set_output sampleLogger [("rows", PyVal.int 10)]).output
          = [("rows", PyVal.int 10)]) :=
  ⟨rfl,
   claim8_normalizer_identity (PyVal.list [PyVal.int 1, PyVal.str "a"])
     sampleLogger [("rows", PyVal.int 10)] rfl
     (by
       intro kv hkv
       simp only [List.mem_singleton] at hkv
       rw [hkv]
       rfl)⟩

/-- C9: `add_flag` without metadata is idempotent: on a fresh name the
first call stores the boolean sentinel and a second call leaves it
`True`; and whenever an entry for the name already exists in any form,
a metadata-less call returns the recorder completely unchanged (never
duplicates or resets the entry). -/
theorem claim9_add_flag_idempotent (lg : AutomationRunLogger) (x : String)
    (hx : x ≠ "") (hxs : pystrip x = x) :
    (dictGet lg.flags x = Option.none →
      ∀ lg1, add_flag lg x [] = Except.ok lg1 →
        dictGet lg1.flags x = some (PyVal.bool true)
        ∧ add_flag lg1 x [] = Except.ok lg1)
    ∧ (∀ v, dictGet lg.flags x = some v → add_flag lg x [] = Except.ok lg) := by
  constructor
  · intro h lg1 h1
    have hA : add_flag lg x []
        = Except.ok { lg with flags := lg.flags ++ [(x, PyVal.bool true)] } := by
      simp [add_flag, hx, hxs, dictSetdefault, h]
    rw [hA] at h1
    have h1' : lg1 = { lg with flags := lg.flags ++ [(x, PyVal.bool true)] } :=
      (Except.ok.inj h1).symm
    subst h1'
    have hget : dictGet (lg.flags ++ [(x, PyVal.bool true)]) x
        = some (PyVal.bool true) := by
      rw [dictGet_append_right lg.flags _ x h]
      simp [dictGet]
    refine ⟨hget, ?_⟩
    simp [add_flag, hx, hxs, dictSetdefault, hget]
  · intro v hv
    simp [add_flag, hx, hxs, dictSetdefault, hv]

/-- C9 witness: on a recorder with no `"x"` flag, two metadata-less calls
leave `flags["x"] == True`, and on a recorder that already has an entry a
metadata-less call is the identity. -/
theorem claim9_witness :
    ("x" : String) ≠ ""
    ∧ dictGet ({ sampleLogger with
        flags := [("x", PyVal.bool true)] } : AutomationRunLogger).flags "x"
        = some (PyVal.bool true)
    ∧ add_flag { sampleLogger with flags := [("x", PyVal.bool true)] } "x" []
        = Except.ok { sampleLogger with flags := [("x", PyVal.bool true)] } := by
  refine ⟨by decide, rfl, ?_⟩
  exact (claim9_add_flag_idempotent
      { sampleLogger with flags := [("x", PyVal.bool true)] } "x"
      (by decide) (by decide)).2 (PyVal.bool true) rfl

/-- C3 (amended): flag metadata merges instead of overwriting.  On a
fresh name, `add_flag x ⟨k1 ↦ v1⟩` then `add_flag x ⟨k2 ↦ v2⟩` leaves
`flags[x] == ⟨k1 ↦ v1, k2 ↦ v2⟩` (normalized, last-write-wins per key);
`add_flag x` then `add_flag x ⟨k1 ↦ v1⟩` upgrades the boolean sentinel to
the metadata map `⟨k1 ↦ v1⟩`; a pre-existing non-map scalar entry `w`
*other than `None`* is wrapped as `⟨value ↦ normalized w⟩` before the
merge; and a stored `None` entry — indistinguishable from an absent key
to the source's `flags.get` — starts from an empty metadata map instead
of being wrapped. -/
theorem claim3_flag_metadata_merge (lg : AutomationRunLogger) (x k1 k2 : String)
    (v1 v2 w : PyVal)
    (hx : x ≠ "") (hxs : pystrip x = x) (hk : k1 ≠ k2) (hkv : k1 ≠ "value") :
    (dictGet lg.flags x = Option.none →
      ∀ lg1, add_flag lg x [(k1, v1)] = Except.ok lg1 →
        dictGet lg1.flags x = some (PyVal.dict [(k1, jsonable v1)])
        ∧ ∀ lg2, add_flag lg1 x [(k2, v2)] = Except.ok lg2 →
            dictGet lg2.flags x
              = some (PyVal.dict [(k1, jsonable v1), (k2, jsonable v2)]))
    ∧ (dictGet lg.flags x = Option.none →
      ∀ lg1, add_flag lg x [] = Except.ok lg1 →
        ∀ lg2, add_flag lg1 x [(k1, v1)] = Except.ok lg2 →
          dictGet lg2.flags x = some (PyVal.dict [(k1, jsonable v1)]))
    ∧ (dictGet lg.flags x = some w → isSentinelMapOrNone w = false →
      ∀ lg1, add_flag lg x [(k1, v1)] = Except.ok lg1 →
        dictGet lg1.flags x
          = some (PyVal.dict [("value", jsonable w), (k1, jsonable v1)]))
    ∧ (dictGet lg.flags x = some PyVal.none →
      ∀ lg1, add_flag lg x [(k1, v1)] = Except.ok lg1 →
        dictGet lg1.flags x = some (PyVal.dict [(k1, jsonable v1)])) := by
  refine ⟨?_, ?_, ?_, ?_⟩
  · intro h lg1 h1
    have hA : add_flag lg x [(k1, v1)]
        = Except.ok { lg with
            flags := dictSet lg.flags x (PyVal.dict [(k1, jsonable v1)]) } := by
      simp [add_flag, hx, hxs, h, dictSet]
    rw [hA] at h1
    have h1' := (Except.ok.inj h1).symm
    subst h1'
    have hget1 : dictGet
        (dictSet lg.flags x (PyVal.dict [(k1, jsonable v1)])) x
        = some (PyVal.dict [(k1, jsonable v1)]) := dictGet_dictSet_self _ _ _
    refine ⟨hget1, ?_⟩
    intro lg2 h2
    have hB : add_flag { lg with
          flags := dictSet lg.flags x (PyVal.dict [(k1, jsonable v1)]) } x [(k2, v2)]
        = Except.ok { lg with
            flags := dictSet (dictSet lg.flags x (PyVal.dict [(k1, jsonable v1)])) x
              (PyVal.dict [(k1, jsonable v1), (k2, jsonable v2)]) } := by
      simp [add_flag, hx, hxs, hget1, dictSet, hk]
    rw [hB] at h2
    have h2' := (Except.ok.inj h2).symm
    subst h2'
    exact dictGet_dictSet_self _ _ _
  · intro h lg1 h1
    have hA : add_flag lg x []
        = Except.ok { lg with flags := lg.flags ++ [(x, PyVal.bool true)] } := by
      simp [add_flag, hx, hxs, dictSetdefault, h]
    rw [hA] at h1
    have h1' := (Except.ok.inj h1).symm
    subst h1'
    have hget : dictGet (lg.flags ++ [(x, PyVal.bool true)]) x
        = some (PyVal.bool true) := by
      rw [dictGet_append_right lg.flags _ x h]
      simp [dictGet]
    intro lg2 h2
    have hB : add_flag { lg with flags := lg.flags ++ [(x, PyVal.bool true)] } x
          [(k1, v1)]
        = Except.ok { lg with
            flags := dictSet (lg.flags ++ [(x, PyVal.bool true)]) x
              (PyVal.dict [(k1, jsonable v1)]) } := by
      simp [add_flag, hx, hxs, hget, dictSet]
    rw [hB] at h2
    have h2' := (Except.ok.inj h2).symm
    subst h2'
    exact dictGet_dictSet_self _ _ _
  · intro hw hscal
    have hval : ("value" : String) ≠ k1 := Ne.symm hkv
    have hA : add_flag lg x [(k1, v1)]
        = Except.ok { lg with
            flags := dictSet lg.flags x
              (PyVal.dict [("value", jsonable w), (k1, jsonable v1)]) } := by
      cases w with
      | none => simp [isSentinelMapOrNone] at hscal
      | bool b =>
        cases b with
        | true => simp [isSentinelMapOrNone] at hscal
        | false => simp_all [add_flag, dictSet]
      | int n => simp_all [add_flag, dictSet]
      | float q => simp_all [add_flag, dictSet]
      | str s => simp_all [add_flag, dictSet]
      | list xs => simp_all [add_flag, dictSet]
      | dict kvs => simp [isSentinelMapOrNone] at hscal
      | datetime base tz => simp_all [add_flag, dictSet]
      | other os => simp_all [add_flag, dictSet]
    intro lg1 h1
    rw [hA] at h1
    have h1' := (Except.ok.inj h1).symm
    subst h1'
    exact dictGet_dictSet_self _ _ _
  · intro hw lg1 h1
    have hA : add_flag lg x [(k1, v1)]
        = Except.ok { lg with
            flags := dictSet lg.flags x (PyVal.dict [(k1, jsonable v1)]) } := by
      simp [add_flag, hx, hxs, hw, dictSet]
    rw [hA] at h1
    have h1' := (Except.ok.inj h1).symm
    subst h1'
    exact dictGet_dictSet_self _ _ _

/-- C3 witness: `add_flag "x" ⟨a ↦ 1⟩` then `add_flag "x" ⟨b ↦ 2⟩` on a fresh
recorder leaves `flags["x"] == ⟨a ↦ 1, b ↦ 2⟩`. -/
theorem claim3_witness :
    ("x" : String) ≠ ""
    ∧ dictGet ({ sampleLogger with
          flags := [("x", PyVal.dict [("a", PyVal.int 1), ("b", PyVal.int 2)])] }
            : AutomationRunLogger).flags "x"
        = some (PyVal.dict [("a", PyVal.int 1), ("b", PyVal.int 2)]) :=
  ⟨by decide,
   ((claim3_flag_metadata_merge sampleLogger "x" "a" "b"
        (PyVal.int 1) (PyVal.int 2) PyVal.none
        (by decide) (by decide) (by decide) (by decide)).1 rfl
      { sampleLogger with flags := [("x", PyVal.dict [("a", PyVal.int 1)])] } rfl).2
     { sampleLogger with
        flags := [("x", PyVal.dict [("a", PyVal.int 1), ("b", PyVal.int 2)])] } rfl⟩

/-- C3 counterexample: the wrap rule as claimed fails for a stored `None`
entry (a non-map scalar): `flags.get` returns `None` for it exactly as
for an absent key, so `existing is True or existing is None` resets it to
the empty map — `add_flag "x" ⟨a ↦ 1⟩` on a recorder whose `"x"` flag is a
stored `None` yields `⟨a ↦ 1⟩`, not the wrapped `⟨value ↦ None, a ↦ 1⟩`. -/
theorem claim3_counterexample :
    dictGet noneFlagLogger.flags "x" = some PyVal.none
    ∧ Except.map (fun lg => dictGet lg.flags "x")
        (add_flag noneFlagLogger "x" [("a", PyVal.int 1)])
        = Except.ok (some (PyVal.dict [("a", PyVal.int 1)]))
    ∧ PyVal.dict [("a", PyVal.int 1)]
        ≠ PyVal.dict [("value", PyVal.none), ("a", PyVal.int 1)] := by
  refine ⟨rfl, rfl, ?_⟩
  simp

/-- Characterization of a successful `add_flag`: the name stripped
non-empty, and the new flags are a `setdefault` of the sentinel or an
assignment of a metadata map, both under the stripped name. -/
theorem add_flag_ok_flags (lg : AutomationRunLogger) (n : String)
    (meta : List (String × PyVal)) (lg2 : AutomationRunLogger)
    (hok : add_flag lg n meta = Except.ok lg2) :
    pystrip n ≠ ""
    ∧ (lg2.flags = dictSetdefault lg.flags (pystrip n) (PyVal.bool true)
       ∨ ∃ md, lg2.flags = dictSet lg.flags (pystrip n) (PyVal.dict md)) := by
  by_cases hn : n = ""
  · simp [add_flag, hn] at hok
  · by_cases hs : pystrip n = ""
    · simp [add_flag, hn, hs] at hok
    · refine ⟨hs, ?_⟩
      by_cases hm : meta.isEmpty
      · left
        simp only [add_flag, if_neg hn, if_neg hs, if_pos hm] at hok
        rw [← Except.ok.inj hok]
      · simp only [add_flag, if_neg hn, if_neg hs, if_neg hm] at hok
        exact Or.inr ⟨_, by rw [← Except.ok.inj hok]⟩

/-- C10: every key in the flags mapping is a non-empty string with no
leading or trailing whitespace: `add_flag` stores under the trimmed name
(so two names with the same trimmed form address the same entry) and
preserves the invariant; no other recorder operation touches the flags;
and construction yields empty flags. -/
theorem claim10_flag_keys_invariant (lg : AutomationRunLogger) :
    (∀ n meta lg2, flagsKeysValid lg.flags →
        add_flag lg n meta = Except.ok lg2 → flagsKeysValid lg2.flags)
    ∧ (∀ w n meta, w ≠ "" → n ≠ "" → pystrip w = pystrip n →
        add_flag lg w meta = add_flag lg n meta)
    ∧ (∀ payload, (set_output lg payload).flags = lg.flags)
    ∧ (∀ k v, (add_output lg k v).flags = lg.flags)
    ∧ (mark_failure lg).flags = lg.flags
    ∧ (∀ t0 now, (pyenter lg t0 now).flags = lg.flags)
    ∧ (∀ t1 now exc sinkFails,
        (pyexit lg t1 now exc sinkFails).row.flags
          = (pyexit lg t1 now exc sinkFails).logger.flags
        ∧ (pyexit lg t1 now exc sinkFails).logger.flags = lg.flags)
    ∧ (∀ env cfg args lg0, from_config env cfg args = Except.ok lg0 →
        lg0.flags = []) := by
  refine ⟨?_, ?_, fun _ => rfl, fun _ _ => rfl, rfl, fun _ _ => rfl, ?_, ?_⟩
  · intro n meta lg2 hval hok
    obtain ⟨hs, hflags⟩ := add_flag_ok_flags lg n meta lg2 hok
    have hkey : ∀ kv ∈ lg2.flags, kv.1 = pystrip n ∨ kv ∈ lg.flags := by
      rcases hflags with h | ⟨md, h⟩
      · rw [h]; exact mem_dictSetdefault_key _ _ _
      · rw [h]; exact mem_dictSet_key _ _ _
    intro kv hkv
    rcases hkey kv hkv with h | h
    · exact ⟨by rw [h]; exact hs, by rw [h]; exact pystrip_idem n⟩
    · exact hval kv h
  · intro w n meta hw hn hwn
    simp only [add_flag, if_neg hw, if_neg hn, hwn]
  · intro t1 now exc sinkFails
    refine ⟨rfl, ?_⟩
    cases exc <;> rfl
  · intro env cfg args lg0 hok
    cases hfi : final_id_of env cfg args with
    | none => simp [from_config, hfi] at hok
    | some i =>
      simp only [from_config, hfi, Except.ok.injEq] at hok
      rw [← hok]

/-- C10 witness: adding `" y "` to a recorder whose flags hold a valid
`"x"` entry yields flags whose keys are all trimmed and non-empty, and
`add_flag` applied to `" y "` equals `add_flag` applied to `"y"`. -/
theorem claim10_witness :
    flagsKeysValid ([("x", PyVal.bool true), ("y", PyVal.bool true)])
    ∧ add_flag sampleLogger " y " [] = add_flag sampleLogger "y" [] := by
  constructor
  · exact (claim10_flag_keys_invariant
        { sampleLogger with flags := [("x", PyVal.bool true)] }).1
      " y " []
      { sampleLogger with flags := [("x", PyVal.bool true), ("y", PyVal.bool true)] }
      (by unfold flagsKeysValid; decide) rfl
  · exact (claim10_flag_keys_invariant sampleLogger).2.1 " y " "y" []
      (by decide) (by decide) (by decide)

/-- C5: when the effective (selected, normalized) path mode is `script` but
the Entry-Point Resolver finds no entry script, the mode recorded in the
constructed context is `cwd` — the downgrade happens, the recorded mode is
never left as `script` paired with a cwd result. -/
theorem claim5_script_mode_downgrade (env : Env) (cfg : Config)
    (args : FromConfigArgs) (i : Int)
    (hid : final_id_of env cfg args = some i)
    (hmode : path_mode_selected cfg args = "script")
    (hentry : resolve_entry_script_path env args.script_path = Option.none) :
    final_path_mode_of env cfg args = "cwd"
    ∧ Except.map (fun lg => dictGet lg.context "path_mode")
        (from_config env cfg args) = Except.ok (some (PyVal.str "cwd")) := by
  have hfpm : final_path_mode_of env cfg args = "cwd" := by
    simp [final_path_mode_of, hmode, hentry, pyTruthyStr]
  refine ⟨hfpm, ?_⟩
  have hctx : dictGet (build_context env cfg args) "path_mode"
      = some (PyVal.str "cwd") := by
    unfold build_context
    rw [hentry, hfpm]
    show dictGet (dictUpdate _ (get_host_context env.host)) "path_mode" = _
    rw [dictGet_dictUpdate_of_not_mem _ _ _ (host_context_no_path_mode env.host)]
    simp [pyTruthyStr, dictGet]
  simp only [from_config, hid, Except.map]
  exact congrArg Except.ok hctx

/-- C5 witness: a process with no discoverable entry script and a request
for `path_mode="script"` records mode `cwd` in the context. -/
theorem claim5_witness :
    path_mode_selected {} argsScriptMode = "script"
    ∧ (final_path_mode_of envBare {} argsScriptMode = "cwd"
       ∧ Except.map (fun lg => dictGet lg.context "path_mode")
           (from_config envBare {} argsScriptMode)
           = Except.ok (some (PyVal.str "cwd"))) :=
  ⟨by decide,
   claim5_script_mode_downgrade envBare {} argsScriptMode 1 rfl (by decide) rfl⟩

/-- C1 (amended): identity fields are resolved independently per field with
precedence explicit argument > config value > environment value >
hard-coded default (`automations`, `run_log`, `script`; none for
`automation_id`, whose absence from all sources is fatal), where — per
Python truthiness in the source — a present-but-empty string at the
explicit or config level counts as absent, and the environment supplies
only `automation_id`.  The selected path mode is subsequently normalized
and possibly downgraded (C5). -/
theorem claim1_precedence (env : Env) (cfg : Config) (args : FromConfigArgs) :
    (∀ i, specFirst args.automation_id
        (specFirst cfg.automation_id (env_id_of env)) = some i →
      Except.map (fun lg => (lg.automation_id, lg.schema_name, lg.table_name))
        (from_config env cfg args)
        = Except.ok (i,
            specResolveStr (nonEmptyOpt args.schema_name)
              (nonEmptyOpt cfg.schema_name) "automations",
            specResolveStr (nonEmptyOpt args.table_name)
              (nonEmptyOpt cfg.table_name) "run_log"))
    ∧ pyOrStrD args.path_mode cfg.path_mode "script"
        = specResolveStr (nonEmptyOpt args.path_mode)
            (nonEmptyOpt cfg.path_mode) "script"
    ∧ (specFirst args.automation_id
        (specFirst cfg.automation_id (env_id_of env)) = Option.none →
      from_config env cfg args
        = Except.error
            "automation_id is required (arg, config, or AUTOMATION_ID env var).") := by
  refine ⟨?_, pyOrStrD_eq_spec _ _ _, ?_⟩
  · intro i hi
    have hfi : final_id_of env cfg args = some i := by
      rw [final_id_of_eq_spec]; exact hi
    simp only [from_config, hfi, Except.map, final_schema_of, final_table_of]
    rw [pyOrStrD_eq_spec, pyOrStrD_eq_spec]
  · intro hnone
    have hfi : final_id_of env cfg args = Option.none := by
      rw [final_id_of_eq_spec]; exact hnone
    simp only [from_config, hfi]

/-- C1 witness: explicit id 7 beats config id 3; explicit schema `s1` wins;
config table `t2` beats the default; explicit path mode `cwd` wins — all
with an environment id `99` present and outranked.  An explicit *empty*
schema counts as absent, so the config schema `mycfg` wins there. -/
theorem claim1_witness :
    argsEmptySchema.schema_name = some ""
    ∧ Except.map (fun lg => (lg.automation_id, lg.schema_name, lg.table_name))
        (from_config { envFound with env_automation_id := some "99" } cfgW1 argsW1)
        = Except.ok (7, "s1", "t2")
    ∧ Except.map (fun lg => (lg.automation_id, lg.schema_name, lg.table_name))
        (from_config envFound cfgWithSchema argsEmptySchema)
        = Except.ok (1, "mycfg", "run_log")
    ∧ pyOrStrD argsW1.path_mode cfgW1.path_mode "script" = "cwd" := by
  have h1 := claim1_precedence { envFound with env_automation_id := some "99" }
    cfgW1 argsW1
  have h2 := claim1_precedence envFound cfgWithSchema argsEmptySchema
  exact ⟨rfl, h1.1 7 rfl, h2.1 1 rfl, h1.2.1⟩

/-- C1 counterexample: the claim as stated (precedence over *every*
combination of explicit argument, config value and environment value)
fails: an explicit empty-string `schema_name` is passed yet the config
value wins — the constructed recorder's schema is `mycfg`, not `""`. -/
theorem claim1_counterexample :
    argsEmptySchema.schema_name = some ""
    ∧ cfgWithSchema.schema_name = some "mycfg"
    ∧ Except.map AutomationRunLogger.schema_name
        (from_config envFound cfgWithSchema argsEmptySchema) = Except.ok "mycfg" :=
  ⟨rfl, rfl, rfl⟩

end AutomationLogger
